import Mathlib

/-!
Verification of the run-coach RAG pipeline.

This file gives a shallow embedding, in Lean 4, of the deterministic parts of
the repository:

* `src/ingest/retriever.py` — index loading and retrieval (`load_vectorstore`,
  `retrieve`), with the filesystem probe and the FAISS library calls abstracted
  as oracle parameters;
* `src/graph/coach_graph.py` — the rule-based safety heuristics
  (`_rule_based_safety`), the combination of heuristic and LLM safety output in
  `run_plan`, the horizon computation of `run_plan`, and the safety pass of
  `run_adjust`, with every language-model invocation abstracted as an oracle
  function parameter.

Python machine floats are modelled by exact rationals (`ℚ`); the numeric
literals involved (`1.15`, `1.2`, `2`, `10`) and all inputs exercised here are
far from any binary-rounding boundary.  Python regular-expression searches are
modelled by deterministic character-list scanners; for each of the three
concrete patterns appearing in the source the scanner is equivalent to the
backtracking search (argued pattern by pattern in the comments below).
-/

namespace Coach

/-- ASCII whitespace, as matched by Python's regex class `\s` on the inputs
considered here (the Unicode extras never occur in the source's prompts). -/
def isWSChar (c : Char) : Bool :=
  c = ' ' || c = '\t' || c = '\n' || c = '\r' || c = '\x0b' || c = '\x0c'

/-- The character class `[\d.]` of the profile-number patterns. -/
def isNumDot (c : Char) : Bool := c.isDigit || c = '.'

/-- Value of a digit string (most significant first). -/
def digitsVal (l : List Char) : Nat :=
  l.foldl (fun a c => 10 * a + (c.toNat - 48)) 0

/-- Python `float()` applied to a capture of `[\d.]+`: accepted iff the string
has at most one dot and at least one digit (`"30."`, `".5"`, `"3.5"`, `"35"`
parse; `""`, `"."`, `"3.4.5"` raise `ValueError`, which the source converts to
`None`). -/
def parsePyFloat (s : List Char) : Option ℚ :=
  if s.all isNumDot = true ∧ s.count '.' ≤ 1 ∧ s.any Char.isDigit = true then
    match s.drop (s.takeWhile Char.isDigit).length with
    | [] => some (digitsVal (s.takeWhile Char.isDigit))
    | _ :: fp =>
      some ((digitsVal (s.takeWhile Char.isDigit) : ℚ) +
        (digitsVal fp : ℚ) / ((10 ^ fp.length : Nat) : ℚ))
  else none

/-- One attempt of `re.search(label + r"\s*([\d.]+)", ...)` at a fixed start
position: the literal label, then maximal whitespace, then a non-empty maximal
run of `[\d.]`.  Maximal munch is exact here because `[\d.]` and `\s` are
disjoint and nothing follows the greedy capture in the pattern. -/
def matchLabelAt (label t : List Char) : Option (List Char) :=
  if label.isPrefixOf t then
    let rest := (t.drop label.length).dropWhile isWSChar
    let num := rest.takeWhile isNumDot
    if num.isEmpty then none else some num
  else none

/-- `re.search`: the match at the leftmost start position where the whole
pattern matches. -/
def searchLabelNum (label : List Char) : List Char → Option (List Char)
  | [] => matchLabelAt label []
  | c :: t =>
    match matchLabelAt label (c :: t) with
    | some num => some num
    | none => searchLabelNum label t

/-- `float(re.search(label + r"\s*([\d.]+)", profile).group(1))` wrapped in
`try/except` (coach_graph.py lines 105-112): both a missing match and a
`float()` failure yield `None`. -/
def parseProfileNum (label profile : String) : Option ℚ :=
  (searchLabelNum label.toList profile.toList).bind parsePyFloat

/-- `current_weekly` of `_rule_based_safety` (coach_graph.py line 106). -/
def parseWeekly (profile : String) : Option ℚ :=
  parseProfileNum "Current weekly mileage:" profile

/-- `recent_lr` of `_rule_based_safety` (coach_graph.py line 110). -/
def parseLongRun (profile : String) : Option ℚ :=
  parseProfileNum "Recent long run:" profile

/-- One attempt of `r"(\d+(?:\.\d+)?)\s*(?:mi|miles)"` at a fixed start
position, returning the captured number and the remainder of the text after
the matched `mi` (the alternative `mi` is tried before `miles`, and succeeds
whenever `miles` would).  Backtracking never helps this pattern: if the
optional fraction is present, the character after the integer part is `.`,
which can continue neither `\s*` nor `mi`; shrinking `\d+` leaves a digit in
front, likewise a dead end.  So maximal munch is exact. -/
def matchMileAt (t : List Char) : Option (List Char × List Char) :=
  let d1 := t.takeWhile Char.isDigit
  if d1.isEmpty then none else
    let r1 := t.drop d1.length
    let numRest : List Char × List Char :=
      match r1 with
      | '.' :: r2 =>
        let f := r2.takeWhile Char.isDigit
        if f.isEmpty then (d1, r1) else (d1 ++ '.' :: f, r2.drop f.length)
      | _ => (d1, r1)
    match numRest.2.dropWhile isWSChar with
    | 'm' :: 'i' :: r3 => some (numRest.1, r3)
    | _ => none

/-- `re.findall` scan: non-overlapping matches, left to right, resuming after
each match.  The fuel argument (initially the text length) dominates the
number of remaining characters, so it never runs out. -/
def milesAux : Nat → List Char → List (List Char)
  | 0, _ => []
  | _ + 1, [] => []
  | fuel + 1, c :: t =>
    match matchMileAt (c :: t) with
    | some (num, rest) => num :: milesAux fuel rest
    | none => milesAux fuel t

/-- `miles` of `_rule_based_safety` (coach_graph.py line 115): all numbers
followed by a mile unit.  Every capture of this pattern parses as a float, so
the `filterMap` drops nothing. -/
def milesOf (plan : String) : List ℚ :=
  (milesAux plan.length plan.toList).filterMap parsePyFloat

/-- `weekly_total = sum(miles[:10]) if miles else 0` (line 116); the empty sum
is 0 either way. -/
def weeklySum (plan : String) : ℚ :=
  ((milesOf plan).take 10).foldl (· + ·) 0

/-- `max_long = max(miles) if miles else 0` (line 117). -/
def maxMiles (plan : String) : ℚ :=
  match milesOf plan with
  | [] => 0
  | m :: ms => ms.foldl max m

/-- Lower-case a string character-wise, modelling Python `str.lower()` on the
ASCII prompts involved. -/
def lowerList (s : String) : List Char := s.toList.map Char.toLower

/-- Substring test (`"tempo" in plan_text.lower()` and the like). -/
def containsSeq (pat : List Char) : List Char → Bool
  | [] => pat.isEmpty
  | c :: t => pat.isPrefixOf (c :: t) || containsSeq pat t

/-- Does `(tempo|interval)` match at this exact position of already
lower-cased text?  Returns the keyword length.  At most one alternative can
match (the keywords differ in their first letter). -/
def kwAt (t : List Char) : Option Nat :=
  if ("tempo".toList).isPrefixOf t then some 5
  else if ("interval".toList).isPrefixOf t then some 8
  else none

/-- `.{0,10}(tempo|interval)`: a keyword within the next `j` characters, none
of the skipped characters being a newline (the regex `.` excludes `\n`). -/
def searchKwNear : Nat → List Char → Bool
  | 0, t => (kwAt t).isSome
  | _ + 1, [] => false
  | j + 1, c :: t2 => (kwAt (c :: t2)).isSome || (c ≠ '\n' && searchKwNear j t2)

/-- One attempt of `r"(tempo|interval).{0,40}\n.{0,10}(tempo|interval)"`
(coach_graph.py line 130) at a fixed start position of lower-cased text.
Because `.` excludes `\n`, the only `\n` the greedy `.{0,40}\n` can stop at is
the first newline after the keyword, and it must lie within 40 characters. -/
def hardPairAt (t : List Char) : Bool :=
  match kwAt t with
  | none => false
  | some n =>
    let rest := t.drop n
    let pre := rest.takeWhile (fun c => c ≠ '\n')
    decide (pre.length ≤ 40) && decide (pre.length < rest.length) &&
      searchKwNear 10 (rest.drop (pre.length + 1))

/-- `re.search` of the back-to-back pattern: a match at any start position. -/
def hardSearch : List Char → Bool
  | [] => hardPairAt []
  | c :: t => hardPairAt (c :: t) || hardSearch t

/-- The condition guarding the back-to-back warning (coach_graph.py lines
129-130): both keywords occur somewhere, and the two-line proximity pattern
matches.  `re.IGNORECASE` is modelled by running the scanner on the
lower-cased text. -/
def backToBackFlag (plan : String) : Bool :=
  containsSeq ("tempo".toList) (lowerList plan) &&
    containsSeq ("interval".toList) (lowerList plan) &&
    hardSearch (lowerList plan)

/-- The back-to-back warning message (coach_graph.py line 131). -/
def backToBackMsg : String :=
  "Detected possible back-to-back hard sessions (tempo/interval)."

/-- Python `f"{x:.1f}"` on the non-negative rationals appearing in the
warnings: one decimal place, ties to even. -/
def fmt1 (q : ℚ) : String :=
  let fl : Int := Rat.floor (q * 10)
  let frac : ℚ := q * 10 - (fl : ℚ)
  let r : Int :=
    if frac > 1 / 2 then fl + 1
    else if frac < 1 / 2 then fl
    else if fl % 2 = 0 then fl else fl + 1
  toString (r / 10) ++ "." ++ toString (r % 10)

/-- The weekly-volume warning message (coach_graph.py line 122). -/
def weeklyMsg (total cur : ℚ) : String :=
  "Weekly volume " ++ fmt1 total ++ " mi exceeds ~15% over current " ++
    fmt1 cur ++ " mi."

/-- The long-run warning message (coach_graph.py line 126). -/
def longRunMsg (mx lr : ℚ) : String :=
  "Long run " ++ fmt1 mx ++ " mi is a big jump from recent " ++ fmt1 lr ++ " mi."

/-- The weekly-volume branch of `_rule_based_safety` (lines 119-122):
`if current_weekly:` (truthiness: parsed and non-zero), then
`if weekly_total and weekly_total > current_weekly * 1.15:`.  The two nested
`if`s are flattened into one conjunction in source order. -/
def weeklyWarnings (plan profile : String) : List String :=
  match parseWeekly profile with
  | none => []
  | some cw =>
    if cw ≠ 0 ∧ weeklySum plan ≠ 0 ∧ weeklySum plan > cw * (1.15 : ℚ) then
      [weeklyMsg (weeklySum plan) cw]
    else []

/-- The long-run branch of `_rule_based_safety` (lines 123-126):
`if recent_lr and max_long:` then `if max_long > max(recent_lr + 2,
recent_lr * 1.2):`. -/
def longRunWarnings (plan profile : String) : List String :=
  match parseLongRun profile with
  | none => []
  | some lr =>
    if lr ≠ 0 ∧ maxMiles plan ≠ 0 ∧ maxMiles plan > max (lr + 2) (lr * (1.2 : ℚ)) then
      [longRunMsg (maxMiles plan) lr]
    else []

/-- The back-to-back branch of `_rule_based_safety` (lines 128-131). -/
def backWarnings (plan : String) : List String :=
  if backToBackFlag plan then [backToBackMsg] else []

/-- `_rule_based_safety(plan_text, profile)` (coach_graph.py lines 100-133):
the warnings list, appended in the fixed source order weekly-volume,
long-run, back-to-back. -/
def rule_based_safety (plan profile : String) : List String :=
  weeklyWarnings plan profile ++ longRunWarnings plan profile ++ backWarnings plan

/-- The combination of heuristic warnings with the LLM review in `run_plan`
(coach_graph.py lines 160-162): `combined = safety_llm` then, when the rule
warnings list is non-empty (Python truthiness), the joined heuristic block is
prepended. -/
def combineSafety (rules : List String) (llm : String) : String :=
  if rules = [] then llm
  else "Heuristic checks:\n- " ++ String.intercalate "\n- " rules ++
    "\n\nLLM review:\n" ++ llm

/-- `weeks = max(4, min(24, weeks_to_race or 12))` (coach_graph.py line 140):
Python `or` replaces a zero (falsy) argument by the default 12 before
clamping. -/
def run_plan_weeks (weeks_to_race : Int) : Int :=
  max 4 (min 24 (if weeks_to_race = 0 then 12 else weeks_to_race))

/-- The `HumanMessage` content built by `run_plan` (coach_graph.py lines
144-153): the instruction actually sent to the agent loop, carrying the
computed horizon. -/
def run_plan_instruction (profile task : String) (weeks_to_race : Int) : String :=
  "Runner profile: " ++ profile ++ "\n" ++
  "Task: " ++ task ++ "\n" ++
  "Plan horizon: " ++ toString (run_plan_weeks weeks_to_race) ++ " weeks until race.\n" ++
  "1) Give a week-by-week summary to race day (Base/Build/Taper) with target weekly mileage and key session focus.\n" ++
  "2) Then give a detailed next-7-day table with Day, Session, Distance, Pace/Effort, and notes. Cite sources like [1].\n" ++
  "Keep it grounded in the retrieved corpus. If corpus is weak, say so."

/-- `run_plan` (coach_graph.py lines 136-163).  The agent-loop invocation
`app.invoke` is abstracted as the oracle `loop`, mapping the constructed
instruction to the content of the last message of the LangGraph result
(`none` when no message was produced), and the tool-free safety model call
`_safety_review` as the oracle `llmReview`.  Returns `(plan_text, combined)`
exactly as lines 157-163 compute them. -/
def run_plan (loop : String → Option String) (llmReview : String → String → String)
    (profile task : String) (weeks_to_race : Int) : String × String :=
  let plan_text := (loop (run_plan_instruction profile task weeks_to_race)).getD
    "No response produced."
  (plan_text,
   combineSafety (rule_based_safety plan_text profile) (llmReview plan_text profile))

/-- The `HumanMessage` content built by `run_adjust` (coach_graph.py lines
178-186). -/
def run_adjust_instruction (profile today_plan weather : String) (fatigue : Int) : String :=
  "Runner profile: " ++ profile ++ "\n" ++
  "Today\x27s planned session: " ++ today_plan ++ "\n" ++
  "Weather: " ++ weather ++ "\n" ++
  "Fatigue (1-5): " ++ toString fatigue ++ "\n" ++
  "Adjust the session safely (distance, pace, or modality). Keep it concise and cite sources."

/-- `run_adjust` (coach_graph.py lines 166-192) with the same oracles:
`adjusted = msgs[-1].content if msgs else "No response produced."`, and
`safety = _safety_review(adjusted, profile)` — the model-based check alone;
`_rule_based_safety` is not called on this path. -/
def run_adjust (loop : String → Option String) (llmReview : String → String → String)
    (profile today_plan weather : String) (fatigue : Int) : String × String :=
  let adjusted := (loop (run_adjust_instruction profile today_plan weather fatigue)).getD
    "No response produced."
  (adjusted, llmReview adjusted profile)

/-- The error raised by `load_vectorstore` (retriever.py line 24) when the
index directory is missing. -/
inductive RetrieveError where
  | indexNotFound

/-- `load_vectorstore()` (retriever.py lines 21-26): the filesystem probe
`INDEX_DIR.exists()` is the boolean `indexExists`; the library call
`FAISS.load_local` (together with the `OpenAIEmbeddings` client it needs) is
the oracle `loadLocal`, invoked only on the success path. -/
def load_vectorstore (VS : Type) (indexExists : Bool) (loadLocal : Unit → VS) :
    Except RetrieveError VS :=
  if indexExists then Except.ok (loadLocal ())
  else Except.error RetrieveError.indexNotFound

/-- `retrieve(query, k)` (retriever.py lines 29-31): load the store, then run
`vs.similarity_search(query, k=k)`, abstracted as the oracle
`similarity_search`. -/
def retrieve (VS Doc : Type) (indexExists : Bool) (loadLocal : Unit → VS)
    (similarity_search : VS → String → Nat → List Doc) (query : String) (k : Nat) :
    Except RetrieveError (List Doc) :=
  match load_vectorstore VS indexExists loadLocal with
  | Except.error e => Except.error e
  | Except.ok vs => Except.ok (similarity_search vs query k)

/-- The parameter names of `def retrieve(query: str, k: int = 4)`
(retriever.py line 29).  The function declares no `**kwargs`. -/
def retrieve_params : List String := ["query", "k"]

/-- Python call binding for keyword arguments: a call raises `TypeError`
unless every keyword names a declared parameter. -/
def acceptsKeywords (params kwargs : List String) : Bool :=
  kwargs.all (fun kw => params.contains kw)

/-- The keyword arguments of the call `retrieve(query, k=k, domain=dom)` in
`retrieve_tool` (coach_graph.py line 36); `quick_eval.py` line 29 issues the
same keywords. -/
def retrieve_tool_call_kwargs : List String := ["k", "domain"]

/-- Whether the `retrieve_tool` call to `retrieve` binds without a
`TypeError`. -/
def retrieve_tool_call_binds : Bool :=
  acceptsKeywords retrieve_params retrieve_tool_call_kwargs

/-! ## Evaluation lemmas

The rational operations of the ambient library are `@[irreducible]`, so
concrete rational values produced by the scanners are established through the
following lemmas rather than by kernel reduction; the character-level
scanning itself is evaluated by `decide`. -/

lemma all_isNumDot (s : List Char) (hd : s.all Char.isDigit = true) :
    s.all isNumDot = true := by
  rw [List.all_eq_true] at *
  intro c hc
  simp [isNumDot, hd c hc]

lemma count_dot_zero (s : List Char) (hd : s.all Char.isDigit = true) :
    s.count '.' = 0 := by
  rw [List.count_eq_zero]
  intro h
  rw [List.all_eq_true] at hd
  have h2 := hd '.' h
  simp at h2

lemma takeWhile_digits (s : List Char) (hd : s.all Char.isDigit = true) :
    s.takeWhile Char.isDigit = s := by
  induction s with
  | nil => rfl
  | cons c t ih =>
    rw [List.all_cons, Bool.and_eq_true] at hd
    rw [List.takeWhile_cons_of_pos hd.1, ih hd.2]

lemma any_digit (s : List Char) (hd : s.all Char.isDigit = true) (hne : s ≠ []) :
    s.any Char.isDigit = true := by
  cases s with
  | nil => exact absurd rfl hne
  | cons c t =>
    rw [List.all_cons, Bool.and_eq_true] at hd
    simp [List.any_cons, hd.1]

/-- On an all-digit capture, Python `float()` yields the digit value. -/
lemma parsePyFloat_digits (s : List Char) (hd : s.all Char.isDigit = true)
    (hne : s ≠ []) : parsePyFloat s = some ((digitsVal s : ℚ)) := by
  unfold parsePyFloat
  rw [if_pos ⟨all_isNumDot s hd, by rw [count_dot_zero s hd]; omega, any_digit s hd hne⟩]
  rw [takeWhile_digits s hd, List.drop_length]

lemma filterMap_parsePyFloat_digits (l : List (List Char))
    (h : ∀ s ∈ l, s.all Char.isDigit = true ∧ s ≠ []) :
    l.filterMap parsePyFloat = l.map (fun s => ((digitsVal s : ℚ))) := by
  induction l with
  | nil => rfl
  | cons a t ih =>
    simp only [List.filterMap_cons, List.map_cons,
      parsePyFloat_digits a (h a (List.mem_cons_self a t)).1 (h a (List.mem_cons_self a t)).2,
      ih (fun s hs => h s (List.mem_cons_of_mem a hs))]

lemma parseProfileNum_eval (label profile : String) (num : List Char) (q : ℚ)
    (hs : searchLabelNum label.toList profile.toList = some num)
    (hd : num.all Char.isDigit = true) (hne : num ≠ [])
    (hq : ((digitsVal num : ℚ)) = q) :
    parseProfileNum label profile = some q := by
  unfold parseProfileNum
  rw [hs]
  show parsePyFloat num = some q
  rw [parsePyFloat_digits num hd hne, hq]

lemma eval_parseWeekly_zero : parseWeekly "Current weekly mileage: 0" = some 0 :=
  parseProfileNum_eval _ _ ['0'] 0 (by decide) (by decide) (by decide)
    (by rw [show digitsVal ['0'] = 0 from by decide]; norm_num)

lemma eval_parseWeekly_thirty : parseWeekly "Current weekly mileage: 30" = some 30 :=
  parseProfileNum_eval _ _ ['3', '0'] 30 (by decide) (by decide) (by decide)
    (by rw [show digitsVal ['3', '0'] = 30 from by decide]; norm_num)

lemma eval_parseLongRun_zero : parseLongRun "Recent long run: 0" = some 0 :=
  parseProfileNum_eval _ _ ['0'] 0 (by decide) (by decide) (by decide)
    (by rw [show digitsVal ['0'] = 0 from by decide]; norm_num)

lemma eval_parseLongRun_ten : parseLongRun "Recent long run: 10" = some 10 :=
  parseProfileNum_eval _ _ ['1', '0'] 10 (by decide) (by decide) (by decide)
    (by rw [show digitsVal ['1', '0'] = 10 from by decide]; norm_num)

lemma eval_parseWeekly_both_zero :
    parseWeekly "Current weekly mileage: 0 | Recent long run: 0" = some 0 :=
  parseProfileNum_eval _ _ ['0'] 0 (by decide) (by decide) (by decide)
    (by rw [show digitsVal ['0'] = 0 from by decide]; norm_num)

lemma eval_parseLongRun_both_zero :
    parseLongRun "Current weekly mileage: 0 | Recent long run: 0" = some 0 :=
  parseProfileNum_eval _ _ ['0'] 0 (by decide) (by decide) (by decide)
    (by rw [show digitsVal ['0'] = 0 from by decide]; norm_num)

lemma eval_milesOf_five : milesOf "5 mi" = [5] := by
  unfold milesOf
  rw [show milesAux (String.length "5 mi") (String.toList "5 mi") = [['5']] from by decide]
  rw [filterMap_parsePyFloat_digits _ (by decide)]
  simp only [List.map_cons, List.map_nil]
  rw [show digitsVal ['5'] = 5 from by decide]
  norm_num

lemma eval_weeklySum_five : weeklySum "5 mi" = 5 := by
  unfold weeklySum
  rw [eval_milesOf_five]
  simp

lemma eval_milesOf_twenty_sixteen : milesOf "Mon 20 mi, Tue 16 mi" = [20, 16] := by
  unfold milesOf
  rw [show milesAux (String.length "Mon 20 mi, Tue 16 mi")
    (String.toList "Mon 20 mi, Tue 16 mi") = [['2', '0'], ['1', '6']] from by decide]
  rw [filterMap_parsePyFloat_digits _ (by decide)]
  simp only [List.map_cons, List.map_nil]
  rw [show digitsVal ['2', '0'] = 20 from by decide,
    show digitsVal ['1', '6'] = 16 from by decide]
  norm_num

lemma eval_weeklySum_thirtysix : weeklySum "Mon 20 mi, Tue 16 mi" = 36 := by
  unfold weeklySum
  rw [eval_milesOf_twenty_sixteen]
  simp
  norm_num

lemma eval_milesOf_fifteen : milesOf "15 mi" = [15] := by
  unfold milesOf
  rw [show milesAux (String.length "15 mi") (String.toList "15 mi") =
    [['1', '5']] from by decide]
  rw [filterMap_parsePyFloat_digits _ (by decide)]
  simp only [List.map_cons, List.map_nil]
  rw [show digitsVal ['1', '5'] = 15 from by decide]
  norm_num

lemma eval_maxMiles_fifteen : maxMiles "15 mi" = 15 := by
  unfold maxMiles
  rw [eval_milesOf_fifteen]
  rfl

lemma eval_milesOf_longrun : milesOf "Long run 15 mi" = [15] := by
  unfold milesOf
  rw [show milesAux (String.length "Long run 15 mi") (String.toList "Long run 15 mi") =
    [['1', '5']] from by decide]
  rw [filterMap_parsePyFloat_digits _ (by decide)]
  simp only [List.map_cons, List.map_nil]
  rw [show digitsVal ['1', '5'] = 15 from by decide]
  norm_num

lemma eval_maxMiles_longrun : maxMiles "Long run 15 mi" = 15 := by
  unfold maxMiles
  rw [eval_milesOf_longrun]
  rfl

/-! ## Claim theorems -/

/-- Claim C1 (code_bug): `retrieve` as defined in retriever.py declares only
the parameters `query` and `k`, so the call `retrieve(query, k=k, domain=dom)`
issued by `retrieve_tool` (and by quick_eval.py) does not bind: the `domain`
keyword is rejected and the call raises `TypeError` instead of succeeding and
filtering by domain, while the same call without `domain` would bind. -/
theorem retrieve_rejects_domain_kwarg :
    retrieve_tool_call_binds = false ∧ acceptsKeywords retrieve_params ["k"] = true := by
  decide

/-- Claim C2 counterexample: at a loop result containing back-to-back hard
sessions (so the rule-based check produces a warning), the safety text
returned by `run_adjust` is the model output alone, not the combination of the
rule-based and model-based checks the claim requires. -/
theorem run_adjust_not_combined_cex :
    (run_adjust (fun _ => some "tempo\ninterval") (fun _ _ => "OK") "" "" "" 3).2 ≠
      combineSafety (rule_based_safety "tempo\ninterval" "") "OK" := by
  decide

/-- Claim C2 (amended): for every profile, planned session, weather
description and fatigue level, the plan-adjustment operation runs only the
model-based Safety Reviewer on the loop's result; the rule-based check and the
combination policy are not applied on this path. -/
theorem run_adjust_safety_is_llm_only (loop : String → Option String)
    (llmReview : String → String → String) (profile today_plan weather : String)
    (fatigue : Int) :
    (run_adjust loop llmReview profile today_plan weather fatigue).2 =
      llmReview (run_adjust loop llmReview profile today_plan weather fatigue).1 profile :=
  rfl

/-- Witness for C2 (amended), at a concrete loop result and review oracle. -/
theorem run_adjust_safety_is_llm_only_w :
    (run_adjust (fun _ => some "easy jog") (fun _ _ => "fine") "p" "t" "w" 2).2 =
      (fun _ _ => "fine") (run_adjust (fun _ => some "easy jog") (fun _ _ => "fine")
        "p" "t" "w" 2).1 "p" :=
  run_adjust_safety_is_llm_only (fun _ => some "easy jog") (fun _ _ => "fine") "p" "t" "w" 2

/-- Claim C3 counterexample: a profile with no parseable numbers together
with a plan containing adjacent tempo/interval lines still yields a non-empty
warning list, refuting the claim that the result is always empty. -/
theorem rule_safety_without_profile_nums_cex :
    parseWeekly "" = none ∧ parseLongRun "" = none ∧
      rule_based_safety "tempo\ninterval" "" ≠ [] := by
  decide

/-- Claim C3 (amended): for every plan text, if the profile text contains no
parseable "Current weekly mileage: N" and no parseable "Recent long run: N"
number, the rule-based safety check emits neither the weekly-volume nor the
long-run warning: its output is exactly the back-to-back component, i.e.
empty or the single back-to-back warning. -/
theorem rule_safety_no_profile_nums (plan profile : String)
    (hw : parseWeekly profile = none) (hl : parseLongRun profile = none) :
    rule_based_safety plan profile = backWarnings plan ∧
      (rule_based_safety plan profile = [] ∨
        rule_based_safety plan profile = [backToBackMsg]) := by
  have h1 : weeklyWarnings plan profile = [] := by
    simp [weeklyWarnings, hw]
  have h2 : longRunWarnings plan profile = [] := by
    simp [longRunWarnings, hl]
  have h3 : rule_based_safety plan profile = backWarnings plan := by
    unfold rule_based_safety
    rw [h1, h2]
    simp
  refine ⟨h3, ?_⟩
  rw [h3]
  unfold backWarnings
  by_cases hb : backToBackFlag plan
  · right
    rw [if_pos hb]
  · left
    rw [if_neg hb]

/-- Witness for C3 (amended), at a concrete no-numbers profile. -/
theorem rule_safety_no_profile_nums_w :
    rule_based_safety "tempo\ninterval" "" = backWarnings "tempo\ninterval" ∧
      (rule_based_safety "tempo\ninterval" "" = [] ∨
        rule_based_safety "tempo\ninterval" "" = [backToBackMsg]) :=
  rule_safety_no_profile_nums "tempo\ninterval" "" (by decide) (by decide)

/-- Claim C4 counterexample: at `weeks_to_race = 0` the horizon used is 12
(the Python `or` default), not the claimed clamp `max 4 (min 24 0) = 4`. -/
theorem run_plan_weeks_zero_cex :
    run_plan_weeks 0 = 12 ∧ run_plan_weeks 0 ≠ max 4 (min 24 0) := by
  decide

/-- Claim C4 (amended): for every nonzero integer `weeks_to_race`, the time
horizon used in the instruction built by `run_plan` is `weeks_to_race`
clamped to [4, 24]; at 0 the default 12 is substituted before clamping. -/
theorem run_plan_weeks_clamps_nonzero (w : Int) (hw : w ≠ 0) :
    run_plan_weeks w = max 4 (min 24 w) := by
  unfold run_plan_weeks
  rw [if_neg hw]

/-- Witness for C4 (amended): 30 weeks clamps to 24. -/
theorem run_plan_weeks_clamps_nonzero_w : run_plan_weeks 30 = max 4 (min 24 30) :=
  run_plan_weeks_clamps_nonzero 30 (by decide)

/-- Claim C5 counterexample: with a parseable mileage of 0 the code never
emits the weekly-volume warning, although the claimed criterion (sum of
extracted distances exceeds `1.15 × 0`) holds. -/
theorem weekly_warning_zero_mileage_cex :
    parseWeekly "Current weekly mileage: 0" = some 0 ∧
      weeklySum "5 mi" > (0 : ℚ) * (1.15 : ℚ) ∧
      weeklyWarnings "5 mi" "Current weekly mileage: 0" = [] := by
  refine ⟨eval_parseWeekly_zero, ?_, ?_⟩
  · rw [eval_weeklySum_five]
    norm_num
  · simp only [weeklyWarnings, eval_parseWeekly_zero]
    rw [if_neg (fun hc => hc.1 rfl)]

/-- Claim C5 (amended): for every profile with a parseable positive
"Current weekly mileage: N" and every plan text, the weekly-volume warning is
emitted exactly when the sum of the first 10 extracted mile distances exceeds
`N × 1.15` (a parsed value of 0 suppresses the warning, see C10). -/
theorem weekly_warning_iff (plan profile : String) (cw : ℚ)
    (hp : parseWeekly profile = some cw) (hpos : 0 < cw) :
    weeklyWarnings plan profile ≠ [] ↔ weeklySum plan > cw * (1.15 : ℚ) := by
  have hcap : (0 : ℚ) < cw * (1.15 : ℚ) := mul_pos hpos (by norm_num)
  simp only [weeklyWarnings, hp]
  by_cases hgt : weeklySum plan > cw * (1.15 : ℚ)
  · have hne : weeklySum plan ≠ 0 := (lt_trans hcap hgt).ne'
    rw [if_pos ⟨hpos.ne', hne, hgt⟩]
    simp [hgt]
  · rw [if_neg (fun h => hgt h.2.2)]
    simp [hgt]

/-- Witness for C5 (amended): the spec's worked example, 36 extracted miles
against a current weekly mileage of 30 (cap 34.5). -/
theorem weekly_warning_iff_w :
    weeklyWarnings "Mon 20 mi, Tue 16 mi" "Current weekly mileage: 30" ≠ [] :=
  (weekly_warning_iff "Mon 20 mi, Tue 16 mi" "Current weekly mileage: 30" 30
    eval_parseWeekly_thirty (by norm_num)).mpr
    (by rw [eval_weeklySum_thirtysix]; norm_num)

/-- Claim C6 counterexample: with a parseable recent long run of 0 the code
never emits the long-run warning, although the claimed criterion
(max extracted distance exceeds `max(0 + 2, 0 × 1.2) = 2`) holds. -/
theorem long_run_warning_zero_lr_cex :
    parseLongRun "Recent long run: 0" = some 0 ∧ milesOf "15 mi" ≠ [] ∧
      maxMiles "15 mi" > max ((0 : ℚ) + 2) ((0 : ℚ) * (1.2 : ℚ)) ∧
      longRunWarnings "15 mi" "Recent long run: 0" = [] := by
  refine ⟨eval_parseLongRun_zero, ?_, ?_, ?_⟩
  · rw [eval_milesOf_fifteen]
    simp
  · rw [eval_maxMiles_fifteen]
    norm_num
  · simp only [longRunWarnings, eval_parseLongRun_zero]
    rw [if_neg (fun hc => hc.1 rfl)]

/-- Claim C6 (amended): for every profile with a parseable positive
"Recent long run: R" and every plan text, the long-run warning is emitted
exactly when the maximum extracted mile distance exceeds
`max (R + 2) (R × 1.2)` (a parsed value of 0 suppresses the warning, see
C10; when no distance is extracted the maximum is 0 and neither side holds). -/
theorem long_run_warning_iff (plan profile : String) (lr : ℚ)
    (hp : parseLongRun profile = some lr) (hpos : 0 < lr) :
    longRunWarnings plan profile ≠ [] ↔
      maxMiles plan > max (lr + 2) (lr * (1.2 : ℚ)) := by
  have hcap : (0 : ℚ) < max (lr + 2) (lr * (1.2 : ℚ)) :=
    lt_of_lt_of_le (by linarith) (le_max_left _ _)
  simp only [longRunWarnings, hp]
  by_cases hgt : maxMiles plan > max (lr + 2) (lr * (1.2 : ℚ))
  · have hm : maxMiles plan ≠ 0 := (lt_trans hcap hgt).ne'
    rw [if_pos ⟨hpos.ne', hm, hgt⟩]
    simp [hgt]
  · rw [if_neg (fun h => hgt h.2.2)]
    simp [hgt]

/-- Witness for C6 (amended): the spec's worked example, a 15-mile run
against a recent long run of 10 (cap `max 12 12 = 12`). -/
theorem long_run_warning_iff_w :
    longRunWarnings "Long run 15 mi" "Recent long run: 10" ≠ [] :=
  (long_run_warning_iff "Long run 15 mi" "Recent long run: 10" 10
    eval_parseLongRun_ten (by norm_num)).mpr
    (by rw [eval_maxMiles_longrun]; norm_num)

/-- Claim C7 (confirmed): in plan generation, when the rule-based warnings
are non-empty the returned safety text is exactly the heuristic block
(warnings joined by "\n- " after "Heuristic checks:\n- ") followed by
"\n\nLLM review:\n" and the model output; when they are empty it is the model
output alone. -/
theorem run_plan_combination (loop : String → Option String)
    (llmReview : String → String → String) (profile task : String) (w : Int) :
    (rule_based_safety (run_plan loop llmReview profile task w).1 profile ≠ [] →
      (run_plan loop llmReview profile task w).2 =
        "Heuristic checks:\n- " ++
          String.intercalate "\n- "
            (rule_based_safety (run_plan loop llmReview profile task w).1 profile) ++
          "\n\nLLM review:\n" ++
          llmReview (run_plan loop llmReview profile task w).1 profile) ∧
    (rule_based_safety (run_plan loop llmReview profile task w).1 profile = [] →
      (run_plan loop llmReview profile task w).2 =
        llmReview (run_plan loop llmReview profile task w).1 profile) := by
  have key : ∀ (rules : List String) (llm : String),
      (rules ≠ [] → combineSafety rules llm =
        "Heuristic checks:\n- " ++ String.intercalate "\n- " rules ++
          "\n\nLLM review:\n" ++ llm) ∧
      (rules = [] → combineSafety rules llm = llm) := by
    intro rules llm
    constructor
    · intro h
      unfold combineSafety
      rw [if_neg h]
    · intro h
      unfold combineSafety
      rw [if_pos h]
  exact key _ _

/-- Witness for C7, with a loop result that triggers the back-to-back rule
warning and a constant model review. -/
theorem run_plan_combination_w :
    (run_plan (fun _ => some "tempo\ninterval") (fun _ _ => "OK") "" "" 12).2 =
      "Heuristic checks:\n- " ++
        String.intercalate "\n- " (rule_based_safety "tempo\ninterval" "") ++
        "\n\nLLM review:\n" ++ "OK" :=
  (run_plan_combination (fun _ => some "tempo\ninterval") (fun _ _ => "OK") "" "" 12).1
    (by decide)

/-- Claim C8 (confirmed): for every query and k, when the index directory
does not exist `retrieve` (through `load_vectorstore`) returns the
missing-index error, and it does so for every possible behaviour of the index
loader and of the similarity search — i.e. the index is only probed after the
existence check, so a caller who has not run the Index Builder always gets
this error rather than a result. -/
theorem retrieve_missing_index (VS Doc : Type) (loadLocal : Unit → VS)
    (similarity_search : VS → String → Nat → List Doc) (query : String) (k : Nat) :
    retrieve VS Doc false loadLocal similarity_search query k =
        Except.error RetrieveError.indexNotFound ∧
      load_vectorstore VS false loadLocal = Except.error RetrieveError.indexNotFound :=
  ⟨rfl, rfl⟩

/-- Witness for C8, at concrete (trivial) loader and searcher oracles. -/
theorem retrieve_missing_index_w :
    retrieve Unit Unit false (fun _ => ()) (fun _ _ _ => []) "hydration" 3 =
        Except.error RetrieveError.indexNotFound ∧
      load_vectorstore Unit false (fun _ => ()) = Except.error RetrieveError.indexNotFound :=
  retrieve_missing_index Unit Unit (fun _ => ()) (fun _ _ _ => []) "hydration" 3

/-- Claim C10 (confirmed): a parsed current weekly mileage of exactly 0
suppresses the weekly-volume warning regardless of the plan, and a parsed
recent long run of 0 — or a plan with no extractable mile distance —
suppresses the long-run warning: zero parsed values behave like absent
fields. -/
theorem zero_profile_values_suppress (plan profile : String) :
    (parseWeekly profile = some 0 → weeklyWarnings plan profile = []) ∧
    ((parseLongRun profile = some 0 ∨ milesOf plan = []) →
      longRunWarnings plan profile = []) := by
  constructor
  · intro h
    simp only [weeklyWarnings, h]
    rw [if_neg (fun hc => hc.1 rfl)]
  · intro h
    rcases h with h | h
    · simp only [longRunWarnings, h]
      rw [if_neg (fun hc => hc.1 rfl)]
    · have hm : maxMiles plan = 0 := by
        unfold maxMiles
        rw [h]
      rcases hp : parseLongRun profile with _ | lr
      · simp [longRunWarnings, hp]
      · simp only [longRunWarnings, hp]
        rw [if_neg (fun hc => hc.2.1 hm)]

/-- Witness for C10, at a profile whose two numeric fields both parse to 0
and a plan with 99 extracted miles. -/
theorem zero_profile_values_suppress_w :
    weeklyWarnings "Run 99 mi" "Current weekly mileage: 0 | Recent long run: 0" = [] ∧
      longRunWarnings "Run 99 mi" "Current weekly mileage: 0 | Recent long run: 0" = [] :=
  ⟨(zero_profile_values_suppress "Run 99 mi"
      "Current weekly mileage: 0 | Recent long run: 0").1 eval_parseWeekly_both_zero,
   (zero_profile_values_suppress "Run 99 mi"
      "Current weekly mileage: 0 | Recent long run: 0").2
      (Or.inl eval_parseLongRun_both_zero)⟩

end Coach
